import Mathlib

/-!
Shallow embedding of `backend/app/models/recipe.py` (Pydantic models for a
recipe-analysis service) and verification of its validation contract.

Modelling conventions:
* a Pydantic model is a Lean structure; constructing a model from a payload
  is a `build` function returning `Except (List String) M`, where the error
  list aggregates one message per failing field in field-declaration order
  (Pydantic collects all field errors);
* `Field` constraints (`min_length`, `max_length`, `ge`, `le`) run before the
  attached `field_validator` of the same field, and `mode="after"` validators
  run on the already type-checked value;
* absent optional fields are `none`; defaults are substituted unvalidated
  (Pydantic does not validate defaults);
* Python `str` is `String`, `int` is `Int`, `float` fields (scores, protein
  grams) are `ℚ` — they are only ever compared, never combined
  arithmetically, and comparison of finite floats agrees with the rational
  order; `Dict[str, Any]` is an opaque type parameter;
* `str.strip` is `pyStrip` (ASCII whitespace, which covers every input the
  claims mention) and `str.lower` is `pyLower` (ASCII case folding).
-/

namespace Epoch

/-- ASCII whitespace stripped by Python `str.strip()`. -/
def pyIsSpace (c : Char) : Bool :=
  c = ' ' || c = '\t' || c = '\n' || c = '\r' || c = '\x0b' || c = '\x0c'

/-- Strip `pyIsSpace` characters from both ends of a character list. -/
def pyStripList (l : List Char) : List Char :=
  ((l.dropWhile pyIsSpace).reverse.dropWhile pyIsSpace).reverse

/-- Python `str.strip()`. -/
def pyStrip (s : String) : String :=
  String.mk (pyStripList s.data)

/-- Python `str.lower()` (ASCII). -/
def pyLower (s : String) : String :=
  String.mk (s.data.map Char.toLower)

/-- Whether a construction result is a success. -/
def isOk {ε α : Type} : Except ε α → Bool
  | .ok _ => true
  | .error _ => false

/-- Per-field error messages contributed by one field result. -/
def errList {α : Type} : Except String α → List String
  | .ok _ => []
  | .error m => [m]

/-- The value a later validator sees in `info.data` for an earlier field:
`some v` when that field validated successfully, `none` when it failed
(Pydantic omits failed fields from `info.data`). -/
def dataOf {α : Type} : Except String α → Option α
  | .ok v => some v
  | .error _ => none

/-- A single quote character, used in Pydantic-style error messages. -/
def sq : Char := '\x27'

/-! ## RecipeAnalysisRequest -/

structure RecipeAnalysisRequest where
  recipe_name : String
deriving DecidableEq

/-- Bounds `min_length=1, max_length=200` followed by
`validate_recipe_name`: reject blank-after-strip, store the stripped name. -/
def validate_recipe_name (v : String) : Except String String :=
  if v.length < 1 then .error "String should have at least 1 character"
  else if 200 < v.length then .error "String should have at most 200 characters"
  else if pyStrip v = "" then .error "Recipe name cannot be empty"
  else .ok (pyStrip v)

/-- Construct a `RecipeAnalysisRequest` from a payload. -/
def RecipeAnalysisRequest.build (recipe_name : String) :
    Except (List String) RecipeAnalysisRequest :=
  match validate_recipe_name recipe_name with
  | .ok r => .ok ⟨r⟩
  | .error e => .error [e]

/-! ## FullAnalysisRequest -/

structure FullAnalysisRequest where
  recipe_name : String
  ingredients : Option (List String)
  allergens : Option (List String)
  avoid_ingredients : Option (List String)
deriving DecidableEq

/-- Validator `validate_recipe_name_full`: same body (and the same field
bounds) as `validate_recipe_name`. -/
def validate_recipe_name_full (v : String) : Except String String :=
  if v.length < 1 then .error "String should have at least 1 character"
  else if 200 < v.length then .error "String should have at most 200 characters"
  else if pyStrip v = "" then .error "Recipe name cannot be empty"
  else .ok (pyStrip v)

/-- Python comprehension `[ing.strip() for ing in v if ing.strip()]`. -/
def stripNonBlank (l : List String) : List String :=
  (l.filter fun i => pyStrip i ≠ "").map pyStrip

/-- Validator `validate_ingredients`: drop blank entries, strip the rest, and reject
when nothing remains. -/
def validate_ingredients (v : Option (List String)) :
    Except String (Option (List String)) :=
  match v with
  | none => .ok none
  | some l =>
    if (stripNonBlank l).length = 0 then
      .error "Ingredients list cannot be empty if provided"
    else .ok (some (stripNonBlank l))

/-- The fixed allergen vocabulary (a Python `set` literal). -/
def valid_allergens : List String :=
  ["milk", "eggs", "peanuts", "tree_nuts", "soy", "wheat", "fish", "shellfish"]

/-- Python comprehension `[a.strip().lower() for a in v if a.strip()]`. -/
def normalizeAllergens (l : List String) : List String :=
  (l.filter fun a => pyStrip a ≠ "").map fun a => pyLower (pyStrip a)

/-- Error message for an invalid allergen: the Python f-string names the
normalized value in single quotes and joins the sorted valid set with
commas. -/
def invalidAllergenMsg (a : String) : String :=
  "Invalid allergen " ++ String.singleton sq ++ a ++ String.singleton sq ++
    ". Valid: " ++
    String.intercalate ", " (valid_allergens.mergeSort fun x y => decide (x ≤ y))

/-- Validator `validate_allergens`: normalize, then raise on the first entry outside
the fixed set. -/
def validate_allergens (v : Option (List String)) :
    Except String (Option (List String)) :=
  match v with
  | none => .ok none
  | some l =>
    match (normalizeAllergens l).find? (fun a => !valid_allergens.contains a) with
    | some bad => .error (invalidAllergenMsg bad)
    | none => .ok (some (normalizeAllergens l))

/-- Construct a `FullAnalysisRequest`; `avoid_ingredients` has no validator
and is stored as supplied. -/
def FullAnalysisRequest.build (recipe_name : String)
    (ingredients allergens avoid_ingredients : Option (List String)) :
    Except (List String) FullAnalysisRequest :=
  match validate_recipe_name_full recipe_name, validate_ingredients ingredients,
      validate_allergens allergens with
  | .ok r, .ok i, .ok a => .ok ⟨r, i, a, avoid_ingredients⟩
  | r, i, a => .error (errList r ++ errList i ++ errList a)

/-! ## RecipeBasic -/

structure RecipeBasic where
  id : String
  name : String
  cuisine : Option String
  diet_type : Option String
  ingredients : List String
  instructions : Option String
  prep_time : Option Int
  cook_time : Option Int
  servings : Option Int
deriving DecidableEq

/-- Model `RecipeBasic` declares no validators and no field constraints: every
typed payload is accepted unchanged. -/
def RecipeBasic.build (id name : String) (cuisine diet_type : Option String)
    (ingredients : List String) (instructions : Option String)
    (prep_time cook_time servings : Option Int) :
    Except (List String) RecipeBasic :=
  .ok ⟨id, name, cuisine, diet_type, ingredients, instructions,
    prep_time, cook_time, servings⟩

/-! ## RecipeRecommendation -/

structure RecipeRecommendation where
  recipe : RecipeBasic
  similarity_score : ℚ
  health_score : ℚ
  relevance_score : Option ℚ
  reason : String
deriving DecidableEq

/-- Bounds `ge=0.0, le=100.0` on a required score. -/
def validateScore (v : ℚ) : Except String ℚ :=
  if v < 0 then .error "Input should be greater than or equal to 0"
  else if 100 < v then .error "Input should be less than or equal to 100"
  else .ok v

/-- Bounds `ge=0.0, le=100.0` on the optional score. -/
def validateScoreOpt (v : Option ℚ) : Except String (Option ℚ) :=
  match v with
  | none => .ok none
  | some q =>
    match validateScore q with
    | .ok r => .ok (some r)
    | .error e => .error e

/-- Construct a `RecipeRecommendation`. -/
def RecipeRecommendation.build (recipe : RecipeBasic)
    (similarity_score health_score : ℚ) (relevance_score : Option ℚ)
    (reason : String) : Except (List String) RecipeRecommendation :=
  match validateScore similarity_score, validateScore health_score,
      validateScoreOpt relevance_score with
  | .ok s, .ok h, .ok r => .ok ⟨recipe, s, h, r, reason⟩
  | s, h, r => .error (errList s ++ errList h ++ errList r)

/-! ## RecipeSearchFilters -/

structure RecipeSearchFilters where
  cuisine : Option String
  diet_type : Option String
  min_calories : Option Int
  max_calories : Option Int
  min_protein : Option ℚ
  max_protein : Option ℚ
deriving DecidableEq

/-- Bound `ge=0` on an optional integer field (the check does not
run when the field is absent). -/
def validateNonNegInt (v : Option Int) : Except String (Option Int) :=
  match v with
  | none => .ok none
  | some n =>
    if n < 0 then .error "Input should be greater than or equal to 0"
    else .ok (some n)

/-- Bound `ge=0` on an optional float field. -/
def validateNonNegRat (v : Option ℚ) : Except String (Option ℚ) :=
  match v with
  | none => .ok none
  | some n =>
    if n < 0 then .error "Input should be greater than or equal to 0"
    else .ok (some n)

/-- Validator `validate_calorie_range` on `max_calories`: after the `ge=0` bound, if
`min_calories` is in `info.data` with a non-`None` value and exceeds `v`,
fail. `dataMin` is `none` when `min_calories` itself failed validation. -/
def validate_calorie_range (v : Option Int) (dataMin : Option (Option Int)) :
    Except String (Option Int) :=
  match v with
  | none => .ok none
  | some n =>
    if n < 0 then .error "Input should be greater than or equal to 0"
    else
      match dataMin with
      | some (some m) =>
        if n < m then .error "max_calories must be greater than min_calories"
        else .ok (some n)
      | _ => .ok (some n)

/-- Validator `validate_protein_range` on `max_protein`, mirroring
`validate_calorie_range`. -/
def validate_protein_range (v : Option ℚ) (dataMin : Option (Option ℚ)) :
    Except String (Option ℚ) :=
  match v with
  | none => .ok none
  | some n =>
    if n < 0 then .error "Input should be greater than or equal to 0"
    else
      match dataMin with
      | some (some m) =>
        if n < m then .error "max_protein must be greater than min_protein"
        else .ok (some n)
      | _ => .ok (some n)

/-- Construct `RecipeSearchFilters`; validators run in field order, so the
`max_*` validators see the already-validated `min_*` siblings. -/
def RecipeSearchFilters.build (cuisine diet_type : Option String)
    (min_calories max_calories : Option Int)
    (min_protein max_protein : Option ℚ) :
    Except (List String) RecipeSearchFilters :=
  match validateNonNegInt min_calories,
      validate_calorie_range max_calories (dataOf (validateNonNegInt min_calories)),
      validateNonNegRat min_protein,
      validate_protein_range max_protein (dataOf (validateNonNegRat min_protein)) with
  | .ok a, .ok b, .ok c, .ok d => .ok ⟨cuisine, diet_type, a, b, c, d⟩
  | a, b, c, d => .error (errList a ++ errList b ++ errList c ++ errList d)

/-! ## QuickMealFilters -/

structure QuickMealFilters where
  max_prep_time : Int
  max_ingredients : Int
  max_cost : Int
  hostel_friendly : Bool
  cuisine : Option String
  diet_type : Option String
deriving DecidableEq

/-- Defaulted bounded field `Field(default, ge=lo, le=hi)`: a supplied value is bounds-checked, an
absent one becomes the default unvalidated. -/
def validateBounded (lo hi default : Int) (v : Option Int) : Except String Int :=
  match v with
  | none => .ok default
  | some n =>
    if n < lo then .error "Input should be greater than or equal to the minimum"
    else if hi < n then .error "Input should be less than or equal to the maximum"
    else .ok n

/-- Construct `QuickMealFilters`; every argument is `none` when the payload
omits the field. -/
def QuickMealFilters.build (max_prep_time max_ingredients max_cost : Option Int)
    (hostel_friendly : Option Bool) (cuisine diet_type : Option String) :
    Except (List String) QuickMealFilters :=
  match validateBounded 1 30 5 max_prep_time, validateBounded 1 10 3 max_ingredients,
      validateBounded 10 500 100 max_cost with
  | .ok p, .ok i, .ok c =>
    .ok ⟨p, i, c, hostel_friendly.getD true, cuisine, diet_type⟩
  | p, i, c => .error (errList p ++ errList i ++ errList c)

/-! ## QuickMealRecipe and QuickMealResponse -/

structure QuickMealRecipe where
  recipe : RecipeBasic
  ingredient_count : Int
  estimated_cost : Int
  equipment_needed : List String
  practical_tips : Option String
deriving DecidableEq

/-- Declared default string of `psychological_tip`. -/
def defaultPsychologicalTip : String :=
  "Quick healthy meals help stabilize blood sugar and reduce extreme hunger, making it easier to avoid cravings for junk food."

/-- Model `QuickMealResponse`; `filters_applied : Dict[str, Any]` is opaque to
validation, modelled by the type parameter `α`. -/
structure QuickMealResponse (α : Type) where
  meals : List QuickMealRecipe
  total_found : Int
  filters_applied : α
  psychological_tip : String

/-- Construct a `QuickMealResponse`: the only constraint is
`total_found: Field(ge=0)`. -/
def QuickMealResponse.build {α : Type} (meals : List QuickMealRecipe)
    (total_found : Int) (filters_applied : α)
    (psychological_tip : Option String) :
    Except (List String) (QuickMealResponse α) :=
  if total_found < 0 then
    .error ["Input should be greater than or equal to 0"]
  else
    .ok ⟨meals, total_found, filters_applied,
      psychological_tip.getD defaultPsychologicalTip⟩

/-! ## Helper lemmas -/

theorem dropWhile_self {α : Type} (p : α → Bool) (l : List α) :
    (l.dropWhile p).dropWhile p = l.dropWhile p := by
  induction l with
  | nil => rfl
  | cons a t ih =>
    by_cases h : p a
    · simpa [List.dropWhile_cons, h] using ih
    · simp [List.dropWhile_cons, h]

theorem dropWhile_head_false {α : Type} {p : α → Bool} :
    ∀ {l : List α} {a : α} {t : List α},
      List.dropWhile p l = a :: t → p a = false := by
  intro l
  induction l with
  | nil => intro a t h; simp [List.dropWhile] at h
  | cons b m ih =>
    intro a t h
    by_cases hb : p b
    · exact ih (by simpa [List.dropWhile_cons, hb] using h)
    · rw [List.dropWhile_cons, if_neg (by simp [hb])] at h
      cases h
      simpa using hb

theorem dropWhile_append_single {α : Type} {p : α → Bool} {a : α}
    (h : p a = false) (xs : List α) :
    ∃ ys, (xs ++ [a]).dropWhile p = ys ++ [a] := by
  induction xs with
  | nil => exact ⟨[], by simp [List.dropWhile, h]⟩
  | cons b t ih =>
    by_cases hb : p b
    · simpa [List.dropWhile_cons, hb] using ih
    · exact ⟨b :: t, by simp [List.dropWhile_cons, hb]⟩

theorem pyStripList_dropWhile (l : List Char) :
    (pyStripList l).dropWhile pyIsSpace = pyStripList l := by
  unfold pyStripList
  cases hA : l.dropWhile pyIsSpace with
  | nil => simp
  | cons a t =>
    have pa : pyIsSpace a = false := dropWhile_head_false hA
    obtain ⟨ys, hys⟩ := dropWhile_append_single pa t.reverse
    simp only [List.reverse_cons, hys, List.reverse_append, List.reverse_cons,
      List.reverse_nil, List.nil_append, List.cons_append, List.dropWhile_cons]
    simp [pa]

theorem pyStripList_reverse_dropWhile (l : List Char) :
    (pyStripList l).reverse.dropWhile pyIsSpace = (pyStripList l).reverse := by
  unfold pyStripList
  rw [List.reverse_reverse]
  exact dropWhile_self _ _

theorem pyStripList_idem (l : List Char) :
    pyStripList (pyStripList l) = pyStripList l := by
  conv_lhs => rw [pyStripList]
  rw [pyStripList_dropWhile, pyStripList_reverse_dropWhile, List.reverse_reverse]

theorem pyStrip_idem (s : String) : pyStrip (pyStrip s) = pyStrip s := by
  simp [pyStrip, pyStripList_idem]

theorem isOk_validate_recipe_name_full (v : String) :
    isOk (validate_recipe_name_full v) = true
      ↔ (1 ≤ v.length ∧ v.length ≤ 200 ∧ pyStrip v ≠ "") := by
  unfold validate_recipe_name_full
  split_ifs with h1 h2 h3
  · simp only [isOk, Bool.false_eq_true, false_iff]; intro h; omega
  · simp only [isOk, Bool.false_eq_true, false_iff]; intro h; omega
  · simp only [isOk, Bool.false_eq_true, false_iff]; intro h; exact h.2.2 h3
  · simp only [isOk, true_iff]; exact ⟨by omega, by omega, h3⟩

theorem validate_recipe_name_full_ok {v r : String}
    (h : validate_recipe_name_full v = .ok r) : r = pyStrip v := by
  unfold validate_recipe_name_full at h
  split_ifs at h
  exact (Except.ok.injEq _ _).mp h |>.symm

theorem isOk_validate_recipe_name (v : String) :
    isOk (validate_recipe_name v) = true
      ↔ (1 ≤ v.length ∧ v.length ≤ 200 ∧ pyStrip v ≠ "") := by
  unfold validate_recipe_name
  split_ifs with h1 h2 h3
  · simp only [isOk, Bool.false_eq_true, false_iff]; intro h; omega
  · simp only [isOk, Bool.false_eq_true, false_iff]; intro h; omega
  · simp only [isOk, Bool.false_eq_true, false_iff]; intro h; exact h.2.2 h3
  · simp only [isOk, true_iff]; exact ⟨by omega, by omega, h3⟩

theorem validate_recipe_name_ok {v r : String}
    (h : validate_recipe_name v = .ok r) : r = pyStrip v := by
  unfold validate_recipe_name at h
  split_ifs at h
  exact (Except.ok.injEq _ _).mp h |>.symm

theorem stripNonBlank_eq_nil (l : List String) :
    stripNonBlank l = [] ↔ ∀ a ∈ l, pyStrip a = "" := by
  simp only [stripNonBlank, List.map_eq_nil_iff, List.filter_eq_nil_iff,
    decide_not, ne_eq, Bool.not_eq_eq_eq_not, Bool.not_true, decide_eq_false_iff_not,
    not_not]

theorem normalizeAllergens_eq_nil (l : List String) :
    normalizeAllergens l = [] ↔ ∀ a ∈ l, pyStrip a = "" := by
  simp only [normalizeAllergens, List.map_eq_nil_iff, List.filter_eq_nil_iff,
    decide_not, ne_eq, Bool.not_eq_eq_eq_not, Bool.not_true, decide_eq_false_iff_not,
    not_not]

theorem isOk_build_full (rn : String) (ing all av : Option (List String)) :
    isOk (FullAnalysisRequest.build rn ing all av)
      = (isOk (validate_recipe_name_full rn) && isOk (validate_ingredients ing)
          && isOk (validate_allergens all)) := by
  cases hr : validate_recipe_name_full rn <;>
    cases hi : validate_ingredients ing <;>
    cases ha : validate_allergens all <;>
    simp [FullAnalysisRequest.build, hr, hi, ha, isOk]

theorem build_full_ok {rn : String} {ing all av : Option (List String)}
    {r : FullAnalysisRequest}
    (h : FullAnalysisRequest.build rn ing all av = .ok r) :
    validate_recipe_name_full rn = .ok r.recipe_name
      ∧ validate_ingredients ing = .ok r.ingredients
      ∧ validate_allergens all = .ok r.allergens
      ∧ r.avoid_ingredients = av := by
  cases hr : validate_recipe_name_full rn <;>
    cases hi : validate_ingredients ing <;>
    cases ha : validate_allergens all <;>
    simp only [FullAnalysisRequest.build, hr, hi, ha] at h <;>
    cases h
  simp

theorem validate_ingredients_ok_some {ing : Option (List String)} {l2 : List String}
    (h : validate_ingredients ing = .ok (some l2)) :
    ∃ l0, ing = some l0 ∧ l2 = stripNonBlank l0 := by
  cases ing with
  | none => simp [validate_ingredients] at h
  | some l0 =>
    refine ⟨l0, rfl, ?_⟩
    simp only [validate_ingredients] at h
    split_ifs at h
    simp only [Except.ok.injEq, Option.some.injEq] at h
    exact h.symm

theorem validate_allergens_ok_some {all : Option (List String)} {l2 : List String}
    (h : validate_allergens all = .ok (some l2)) :
    ∃ l0, all = some l0 ∧ l2 = normalizeAllergens l0
      ∧ (normalizeAllergens l0).find? (fun a => !valid_allergens.contains a) = none := by
  cases all with
  | none => simp [validate_allergens] at h
  | some l0 =>
    simp only [validate_allergens] at h
    cases hf : (normalizeAllergens l0).find? (fun a => !valid_allergens.contains a) with
    | some bad => rw [hf] at h; simp at h
    | none =>
      rw [hf] at h
      simp only [Except.ok.injEq, Option.some.injEq] at h
      exact ⟨l0, rfl, h.symm, hf⟩

theorem mem_valid_allergens_normal :
    ∀ a ∈ valid_allergens, pyStrip a = a ∧ pyLower a = a := by decide

theorem isOk_ok {ε α : Type} {e : Except ε α} (h : isOk e = true) :
    ∃ v, e = .ok v := by
  cases e with
  | error m => simp [isOk] at h
  | ok v => exact ⟨v, rfl⟩

theorem build_full_error_allergens {rn : String} {ing all av : Option (List String)}
    {m : String} (h : validate_allergens all = .error m) :
    ∃ es, FullAnalysisRequest.build rn ing all av = .error es ∧ m ∈ es := by
  cases hr : validate_recipe_name_full rn <;>
    cases hi : validate_ingredients ing <;>
    · simp only [FullAnalysisRequest.build, hr, hi, h]
      exact ⟨_, rfl, by simp [errList]⟩

theorem build_full_error_ingredients {rn : String} {ing all av : Option (List String)}
    {m : String} (h : validate_ingredients ing = .error m) :
    ∃ es, FullAnalysisRequest.build rn ing all av = .error es ∧ m ∈ es := by
  cases hr : validate_recipe_name_full rn <;>
    cases ha : validate_allergens all <;>
    · simp only [FullAnalysisRequest.build, hr, ha, h]
      exact ⟨_, rfl, by simp [errList]⟩

theorem isOk_validate_ingredients_some (l : List String) :
    isOk (validate_ingredients (some l)) = false ↔ ∀ a ∈ l, pyStrip a = "" := by
  simp only [validate_ingredients]
  split_ifs with hc
  · simp only [isOk, true_iff]
    exact (stripNonBlank_eq_nil l).mp (List.length_eq_zero.mp hc)
  · simp only [isOk, Bool.true_eq_false, false_iff]
    intro hall
    exact hc (((stripNonBlank_eq_nil l).mpr hall) ▸ rfl)

theorem validate_ingredients_error_of_blank {l : List String}
    (h : ∀ a ∈ l, pyStrip a = "") :
    validate_ingredients (some l)
      = .error "Ingredients list cannot be empty if provided" := by
  simp only [validate_ingredients]
  rw [if_pos (((stripNonBlank_eq_nil l).mpr h) ▸ rfl)]

theorem validate_allergens_error_of_find {l : List String} {bad : String}
    (hf : (normalizeAllergens l).find? (fun a => !valid_allergens.contains a)
      = some bad) :
    validate_allergens (some l) = .error (invalidAllergenMsg bad) := by
  simp only [validate_allergens, hf]

theorem validate_allergens_ok_of_blank {l : List String}
    (h : ∀ a ∈ l, pyStrip a = "") :
    validate_allergens (some l) = .ok (some []) := by
  have hn : normalizeAllergens l = [] := (normalizeAllergens_eq_nil l).mpr h
  simp only [validate_allergens, hn, List.find?_nil]

/-! ## Claim theorems -/

/-- Claim C6: `QuickMealFilters` constructed with no fields supplied
succeeds and yields exactly `max_prep_time = 5`, `max_ingredients = 3`,
`max_cost = 100`, `hostel_friendly = true`, `cuisine = null`,
`diet_type = null`. -/
theorem quick_meal_filters_defaults :
    QuickMealFilters.build none none none none none none
      = .ok ⟨5, 3, 100, true, none, none⟩ := rfl

/-- Claim C9: `RecipeBasic` applies no normalization or emptiness/range
validation beyond typing: construction succeeds for every combination of
field values (empty or whitespace-only strings, zero or negative integers
included) and stores every supplied value unchanged. -/
theorem recipe_basic_unvalidated (id name : String)
    (cuisine diet_type : Option String) (ingredients : List String)
    (instructions : Option String) (prep_time cook_time servings : Option Int) :
    RecipeBasic.build id name cuisine diet_type ingredients instructions
        prep_time cook_time servings
      = .ok ⟨id, name, cuisine, diet_type, ingredients, instructions,
          prep_time, cook_time, servings⟩ := rfl

/-- Claim C10: `QuickMealResponse` enforces no consistency between
`total_found` and `meals`: for every meal list and every integer `n`,
construction succeeds exactly when `0 ≤ n`, and on success it stores
`total_found = n` and the meal list unchanged, with no check that `n`
equals the number of meals. -/
theorem quick_meal_response_total_found {α : Type}
    (meals : List QuickMealRecipe) (n : Int) (filters : α)
    (tip : Option String) :
    (isOk (QuickMealResponse.build meals n filters tip) = true ↔ 0 ≤ n)
    ∧ (∀ r, QuickMealResponse.build meals n filters tip = .ok r →
        r.total_found = n ∧ r.meals = meals) := by
  constructor
  · unfold QuickMealResponse.build
    split_ifs with h
    · simp only [isOk, Bool.false_eq_true, false_iff]; omega
    · simp only [isOk, true_iff]; omega
  · intro r hr
    unfold QuickMealResponse.build at hr
    split_ifs at hr
    simp only [Except.ok.injEq] at hr
    rw [← hr]
    exact ⟨rfl, rfl⟩

/-- Witness for C10 at `meals = []`, `total_found = 3` (which differs from
the list length `0`). -/
theorem quick_meal_response_total_found_witness :
    isOk (QuickMealResponse.build ([] : List QuickMealRecipe) 3 () none) = true
    ∧ (3 : Int) ≠ (([] : List QuickMealRecipe).length : Int) :=
  ⟨(quick_meal_response_total_found [] 3 () none).1.mpr (by decide), by decide⟩

/-- Claim C4 counterexample: a raw name of 201 characters whose trimmed
value is non-empty with length 200 (within 1–200) is rejected, because the
1–200 length bound is enforced on the raw input, not the trimmed value. -/
theorem recipe_name_length_counterexample :
    (pyStrip (String.mk (' ' :: List.replicate 200 'a')) ≠ ""
      ∧ 1 ≤ (pyStrip (String.mk (' ' :: List.replicate 200 'a'))).length
      ∧ (pyStrip (String.mk (' ' :: List.replicate 200 'a'))).length ≤ 200)
    ∧ isOk (RecipeAnalysisRequest.build (String.mk (' ' :: List.replicate 200 'a')))
        = false
    ∧ isOk (FullAnalysisRequest.build (String.mk (' ' :: List.replicate 200 'a'))
        none none none) = false := by
  refine ⟨⟨?_, ?_, ?_⟩, ?_, ?_⟩ <;> · set_option maxRecDepth 4096 in decide

/-- Claim C4 (amended): construction of `RecipeAnalysisRequest` (and
`FullAnalysisRequest`) succeeds iff the raw input has length between 1 and
200 and its trimmed value is non-empty; the stored `recipe_name` is the
trimmed value, so accepted inputs differing only in surrounding whitespace
normalize to the same stored name, and all-whitespace input fails. -/
theorem recipe_name_trimmed (s : String) :
    (isOk (RecipeAnalysisRequest.build s) = true
      ↔ (1 ≤ s.length ∧ s.length ≤ 200 ∧ pyStrip s ≠ ""))
    ∧ (∀ r, RecipeAnalysisRequest.build s = .ok r → r.recipe_name = pyStrip s)
    ∧ (isOk (FullAnalysisRequest.build s none none none) = true
      ↔ (1 ≤ s.length ∧ s.length ≤ 200 ∧ pyStrip s ≠ ""))
    ∧ (∀ r, FullAnalysisRequest.build s none none none = .ok r →
        r.recipe_name = pyStrip s) := by
  refine ⟨?_, ?_, ?_, ?_⟩
  · rw [← isOk_validate_recipe_name s]
    cases hv : validate_recipe_name s <;>
      simp [RecipeAnalysisRequest.build, hv, isOk]
  · intro r hr
    cases hv : validate_recipe_name s with
    | error m => simp [RecipeAnalysisRequest.build, hv] at hr
    | ok v =>
      simp only [RecipeAnalysisRequest.build, hv, Except.ok.injEq] at hr
      rw [← hr]
      exact validate_recipe_name_ok hv
  · rw [← isOk_validate_recipe_name_full s, isOk_build_full]
    have hi : validate_ingredients none = .ok none := rfl
    have ha : validate_allergens none = .ok none := rfl
    rw [hi, ha]
    simp [isOk]
  · intro r hr
    exact validate_recipe_name_full_ok (build_full_ok hr).1

/-- Witness for C4 (amended) at `"  Chicken Curry "`. -/
theorem recipe_name_trimmed_witness :
    isOk (RecipeAnalysisRequest.build "  Chicken Curry ") = true
    ∧ (⟨"Chicken Curry"⟩ : RecipeAnalysisRequest).recipe_name
        = pyStrip "  Chicken Curry " :=
  ⟨(recipe_name_trimmed "  Chicken Curry ").1.mpr (by decide),
   (recipe_name_trimmed "  Chicken Curry ").2.1 ⟨"Chicken Curry"⟩ rfl⟩

/-- Claim C2: with a valid recipe name, a present ingredients list drops
blank-after-trim entries silently and stores the remaining entries trimmed
in their original order; construction fails, with the message
"Ingredients list cannot be empty if provided" among the reported errors,
exactly when every entry trims to empty. -/
theorem ingredients_blank_dropped (l : List String) (av : Option (List String))
    (rn : String) (hrn : isOk (validate_recipe_name_full rn) = true) :
    (isOk (FullAnalysisRequest.build rn (some l) none av) = false
      ↔ ∀ a ∈ l, pyStrip a = "")
    ∧ ((∀ a ∈ l, pyStrip a = "") →
        ∃ es, FullAnalysisRequest.build rn (some l) none av = .error es
          ∧ "Ingredients list cannot be empty if provided" ∈ es)
    ∧ (∀ r, FullAnalysisRequest.build rn (some l) none av = .ok r →
        r.ingredients = some ((l.filter fun i => pyStrip i ≠ "").map pyStrip)) := by
  refine ⟨?_, ?_, ?_⟩
  · rw [isOk_build_full, hrn]
    have ha : isOk (validate_allergens (none : Option (List String))) = true := rfl
    rw [ha]
    simp only [Bool.true_and, Bool.and_true]
    exact isOk_validate_ingredients_some l
  · intro hall
    exact build_full_error_ingredients (validate_ingredients_error_of_blank hall)
  · intro r hr
    have h2 := (build_full_ok hr).2.1
    simp only [validate_ingredients] at h2
    split_ifs at h2
    simp only [Except.ok.injEq] at h2
    rw [← h2]
    rfl

/-- Witness for C2: `["  "]` is rejected while `["  ", "rice", ""]` is
accepted and stored as `["rice"]`. -/
theorem ingredients_blank_dropped_witness :
    isOk (FullAnalysisRequest.build "Dish" (some ["  "]) none none) = false
    ∧ FullAnalysisRequest.build "Dish" (some ["  ", "rice", ""]) none none
        = .ok ⟨"Dish", some ["rice"], none, none⟩ :=
  ⟨(ingredients_blank_dropped ["  "] none "Dish" (by decide)).1.mpr (by decide),
   rfl⟩

/-- Claim C8: an allergens list whose entries are all blank after trimming
is accepted (the blank entries are silently dropped) and the stored
allergens value is the empty list — the resulting-list non-emptiness check
applies only to `ingredients`, not to `allergens`. -/
theorem blank_allergens_accepted (rn : String) (ing av : Option (List String))
    (l : List String) (hrn : isOk (validate_recipe_name_full rn) = true)
    (hing : isOk (validate_ingredients ing) = true)
    (hl : ∀ a ∈ l, pyStrip a = "") :
    ∃ r, FullAnalysisRequest.build rn ing (some l) av = .ok r
      ∧ r.allergens = some [] := by
  obtain ⟨rv, hr⟩ := isOk_ok hrn
  obtain ⟨iv, hi⟩ := isOk_ok hing
  have ha := validate_allergens_ok_of_blank hl
  exact ⟨⟨rv, iv, some [], av⟩,
    by simp [FullAnalysisRequest.build, hr, hi, ha], rfl⟩

/-- Witness for C8 at allergens `["  "]`. -/
theorem blank_allergens_accepted_witness :
    ∃ r, FullAnalysisRequest.build "Dish" none (some ["  "]) none = .ok r
      ∧ r.allergens = some [] :=
  blank_allergens_accepted "Dish" none none ["  "] (by decide) (by decide)
    (by decide)

/-- Claim C1 counterexample: the allergens list `["  "]` contains an entry
that is not a member of the valid set (neither raw nor after
normalization), yet construction succeeds — blank entries are dropped
rather than rejected. -/
theorem blank_allergen_counterexample :
    ("  " ∈ ["  "] ∧ "  " ∉ valid_allergens
      ∧ pyLower (pyStrip "  ") ∉ valid_allergens)
    ∧ isOk (FullAnalysisRequest.build "Cake" none (some ["  "]) none) = true := by
  refine ⟨⟨?_, ?_, ?_⟩, ?_⟩ <;> decide

/-- Claim C1 (amended): every allergen entry stored in a successfully
constructed `FullAnalysisRequest` is trimmed, lowercase, and a member of
the fixed 8-element set; and whenever the supplied list has an entry that
is non-blank after trimming and whose trimmed lowercase form is outside
the set, construction fails (no partial acceptance) and the reported
errors name that invalid normalized value and list the valid set sorted
alphabetically. -/
theorem allergens_validated (rn : String) (ing av : Option (List String))
    (l : List String) :
    (∀ req, FullAnalysisRequest.build rn ing (some l) av = .ok req →
      ∃ st, req.allergens = some st
        ∧ ∀ a ∈ st, a ∈ valid_allergens ∧ pyStrip a = a ∧ pyLower a = a)
    ∧ ((∃ a ∈ l, pyStrip a ≠ "" ∧ pyLower (pyStrip a) ∉ valid_allergens) →
        isOk (FullAnalysisRequest.build rn ing (some l) av) = false
        ∧ ∃ bad es, bad ∈ normalizeAllergens l ∧ bad ∉ valid_allergens
          ∧ FullAnalysisRequest.build rn ing (some l) av = .error es
          ∧ invalidAllergenMsg bad ∈ es) := by
  constructor
  · intro req hreq
    have ha := (build_full_ok hreq).2.2.1
    cases hall : req.allergens with
    | none =>
      rw [hall] at ha
      simp only [validate_allergens] at ha
      cases hf : (normalizeAllergens l).find?
          (fun a => !valid_allergens.contains a) with
      | some bad => rw [hf] at ha; simp at ha
      | none => rw [hf] at ha; simp at ha
    | some st =>
      rw [hall] at ha
      obtain ⟨l0, hl0, hst, hfind⟩ := validate_allergens_ok_some ha
      injection hl0 with hl0e
      subst hl0e
      refine ⟨st, rfl, fun a hmem => ?_⟩
      have hvalid : a ∈ valid_allergens := by
        have := List.find?_eq_none.mp hfind a (hst ▸ hmem)
        simpa using this
      exact ⟨hvalid, (mem_valid_allergens_normal a hvalid).1,
        (mem_valid_allergens_normal a hvalid).2⟩
  · rintro ⟨a, hmem, hns, hninv⟩
    have hmm : pyLower (pyStrip a) ∈ normalizeAllergens l :=
      List.mem_map.mpr ⟨a, List.mem_filter.mpr ⟨hmem, by simpa using hns⟩, rfl⟩
    have hsome : ((normalizeAllergens l).find?
        (fun a => !valid_allergens.contains a)).isSome :=
      List.find?_isSome.mpr ⟨_, hmm, by simpa using hninv⟩
    obtain ⟨bad, hbad⟩ := Option.isSome_iff_exists.mp hsome
    have herr := validate_allergens_error_of_find hbad
    constructor
    · rw [isOk_build_full, herr]
      simp [isOk]
    · obtain ⟨es, hes, hmes⟩ := build_full_error_allergens herr
      exact ⟨bad, es, List.mem_of_find?_eq_some hbad,
        by simpa using List.find?_some hbad, hes, hmes⟩

/-- Witness for C1 (amended): `["  Gluten "]` normalizes to `"gluten"`,
which is outside the set, so construction fails. -/
theorem allergens_validated_witness :
    isOk (FullAnalysisRequest.build "Cake" none (some ["  Gluten "]) none)
      = false :=
  ((allergens_validated "Cake" none none ["  Gluten "]).2
    ⟨"  Gluten ", by decide, by decide, by decide⟩).1

/-- Claim C7 counterexample: `avoid_ingredients` has no validator, so a
request constructed with `[" butter "]` stores the entry with its
surrounding whitespace intact. -/
theorem avoid_ingredients_untrimmed_counterexample :
    FullAnalysisRequest.build "Cake" none none (some [" butter "])
      = .ok ⟨"Cake", none, none, some [" butter "]⟩
    ∧ pyStrip " butter " ≠ " butter " :=
  ⟨rfl, by decide⟩

/-- Claim C7 (amended): in every successfully constructed
`FullAnalysisRequest`, every string stored in `ingredients` and in
`allergens` equals its own trimmed form, while `avoid_ingredients` is
stored exactly as supplied (untrimmed). -/
theorem stored_lists_trimmed (rn : String) (ing all av : Option (List String))
    (r : FullAnalysisRequest)
    (hr : FullAnalysisRequest.build rn ing all av = .ok r) :
    (∀ l, r.ingredients = some l → ∀ s ∈ l, pyStrip s = s)
    ∧ (∀ l, r.allergens = some l → ∀ s ∈ l, pyStrip s = s ∧ pyLower s = s)
    ∧ r.avoid_ingredients = av := by
  obtain ⟨h1, h2, h3, h4⟩ := build_full_ok hr
  refine ⟨?_, ?_, h4⟩
  · intro l hl s hs
    rw [hl] at h2
    obtain ⟨l0, _, hl2⟩ := validate_ingredients_ok_some h2
    rw [hl2] at hs
    obtain ⟨x, _, hx⟩ := List.mem_map.mp hs
    rw [← hx]
    exact pyStrip_idem x
  · intro l hl s hs
    rw [hl] at h3
    obtain ⟨l0, _, hl2, hfind⟩ := validate_allergens_ok_some h3
    rw [hl2] at hs
    have hmem : s ∈ valid_allergens := by
      have := List.find?_eq_none.mp hfind s hs
      simpa using this
    exact mem_valid_allergens_normal s hmem

/-- Witness for C7 (amended) at a concrete request: the stored ingredient
`"rice"` is its own trimmed form and `avoid_ingredients` keeps the raw
entry `" raw "`. -/
theorem stored_lists_trimmed_witness :
    pyStrip "rice" = "rice"
    ∧ (⟨"Cake", some ["rice"], some ["milk"], some [" raw "]⟩
        : FullAnalysisRequest).avoid_ingredients = some [" raw "] :=
  ⟨(stored_lists_trimmed "Cake" (some [" rice "]) (some [" Milk "])
      (some [" raw "]) ⟨"Cake", some ["rice"], some ["milk"], some [" raw "]⟩
      rfl).1 ["rice"] rfl "rice" (by decide),
   (stored_lists_trimmed "Cake" (some [" rice "]) (some [" Milk "])
      (some [" raw "]) ⟨"Cake", some ["rice"], some ["milk"], some [" raw "]⟩
      rfl).2.2⟩

theorem isOk_validateScore (v : ℚ) :
    isOk (validateScore v) = true ↔ (0 ≤ v ∧ v ≤ 100) := by
  unfold validateScore
  split_ifs with h1 h2
  · simp only [isOk, Bool.false_eq_true, false_iff]
    intro hc
    exact absurd hc.1 (not_le.mpr h1)
  · simp only [isOk, Bool.false_eq_true, false_iff]
    intro hc
    exact absurd hc.2 (not_le.mpr h2)
  · simp only [isOk, true_iff]
    exact ⟨not_lt.mp h1, not_lt.mp h2⟩

theorem isOk_validateScoreOpt (v : Option ℚ) :
    isOk (validateScoreOpt v) = true ↔ ∀ x ∈ v, 0 ≤ x ∧ x ≤ 100 := by
  cases v with
  | none => simp [validateScoreOpt, isOk]
  | some q =>
    have he : isOk (validateScoreOpt (some q)) = isOk (validateScore q) := by
      cases hv : validateScore q <;> simp [validateScoreOpt, hv, isOk]
    rw [he, isOk_validateScore]
    simp

theorem isOk_build_reco (rec : RecipeBasic) (s h : ℚ) (r : Option ℚ)
    (reason : String) :
    isOk (RecipeRecommendation.build rec s h r reason)
      = (isOk (validateScore s) && isOk (validateScore h)
          && isOk (validateScoreOpt r)) := by
  cases hs : validateScore s <;> cases hh : validateScore h <;>
    cases hr2 : validateScoreOpt r <;>
    simp [RecipeRecommendation.build, hs, hh, hr2, isOk]

/-- Claim C5: `RecipeRecommendation` score bounds are inclusive and
independent: for any recipe and reason, construction succeeds iff each of
`similarity_score` and `health_score` lies in `[0, 100]` and
`relevance_score`, when present, lies in `[0, 100]` — so 0 and 100 are
accepted and any value strictly below 0 or strictly above 100 is rejected
regardless of the other fields. -/
theorem score_bounds_inclusive (rec : RecipeBasic) (reason : String)
    (s h : ℚ) (r : Option ℚ) :
    isOk (RecipeRecommendation.build rec s h r reason) = true
      ↔ (0 ≤ s ∧ s ≤ 100 ∧ 0 ≤ h ∧ h ≤ 100 ∧ ∀ x ∈ r, 0 ≤ x ∧ x ≤ 100) := by
  rw [isOk_build_reco]
  simp only [Bool.and_eq_true]
  rw [isOk_validateScore, isOk_validateScore, isOk_validateScoreOpt]
  tauto

/-- Witness for C5: scores `100`, `0`, `some 0` are accepted and
`100.0001` is rejected. -/
theorem score_bounds_inclusive_witness :
    isOk (RecipeRecommendation.build
        ⟨"1", "n", none, none, [], none, none, none, none⟩ 100 0 (some 0) "ok")
      = true
    ∧ isOk (RecipeRecommendation.build
        ⟨"1", "n", none, none, [], none, none, none, none⟩
        (1000001 / 10000 : ℚ) 0 none "ok") = false := by
  constructor
  · exact (score_bounds_inclusive ⟨"1", "n", none, none, [], none, none, none,
      none⟩ "ok" 100 0 (some 0)).mpr (by norm_num)
  · rw [← Bool.not_eq_true, score_bounds_inclusive]
    rintro ⟨h1, h2, h3⟩
    norm_num at h2

theorem isOk_validateNonNegInt_of (n : Int) (h : 0 ≤ n) :
    isOk (validateNonNegInt (some n)) = true := by
  simp only [validateNonNegInt]
  rw [if_neg (by omega)]
  rfl

theorem isOk_validateNonNegRat_of (q : ℚ) (h : 0 ≤ q) :
    isOk (validateNonNegRat (some q)) = true := by
  simp only [validateNonNegRat]
  rw [if_neg (not_lt.mpr h)]
  rfl

theorem dataOf_validateNonNegInt (n : Int) (h : 0 ≤ n) :
    dataOf (validateNonNegInt (some n)) = some (some n) := by
  simp only [validateNonNegInt]
  rw [if_neg (by omega)]
  rfl

theorem dataOf_validateNonNegRat (q : ℚ) (h : 0 ≤ q) :
    dataOf (validateNonNegRat (some q)) = some (some q) := by
  simp only [validateNonNegRat]
  rw [if_neg (not_lt.mpr h)]
  rfl

theorem isOk_calorie_range_pair (mx mn : Int) (h : 0 ≤ mx) :
    isOk (validate_calorie_range (some mx) (some (some mn))) = true
      ↔ mn ≤ mx := by
  simp only [validate_calorie_range]
  rw [if_neg (by omega)]
  split_ifs with hlt
  · simp only [isOk, Bool.false_eq_true, false_iff]; omega
  · simp only [isOk, true_iff]; omega

theorem isOk_calorie_range_minAbsent (mx : Int) (h : 0 ≤ mx) :
    isOk (validate_calorie_range (some mx) (some none)) = true := by
  simp only [validate_calorie_range]
  rw [if_neg (by omega)]
  rfl

theorem isOk_protein_range_pair (mx mn : ℚ) (h : 0 ≤ mx) :
    isOk (validate_protein_range (some mx) (some (some mn))) = true
      ↔ mn ≤ mx := by
  simp only [validate_protein_range]
  rw [if_neg (not_lt.mpr h)]
  split_ifs with hlt
  · simp only [isOk, Bool.false_eq_true, false_iff]
    exact fun hc => absurd hc (not_le.mpr hlt)
  · simp only [isOk, true_iff]
    exact not_lt.mp hlt

theorem isOk_protein_range_minAbsent (mx : ℚ) (h : 0 ≤ mx) :
    isOk (validate_protein_range (some mx) (some none)) = true := by
  simp only [validate_protein_range]
  rw [if_neg (not_lt.mpr h)]
  rfl

theorem isOk_build_filters (cu dt : Option String) (mn mx : Option Int)
    (pn px : Option ℚ) :
    isOk (RecipeSearchFilters.build cu dt mn mx pn px)
      = (isOk (validateNonNegInt mn)
          && isOk (validate_calorie_range mx (dataOf (validateNonNegInt mn)))
          && isOk (validateNonNegRat pn)
          && isOk (validate_protein_range px (dataOf (validateNonNegRat pn)))) := by
  unfold RecipeSearchFilters.build
  generalize validateNonNegInt mn = eA
  generalize validate_calorie_range mx (dataOf eA) = eB
  generalize validateNonNegRat pn = eC
  generalize validate_protein_range px (dataOf eC) = eD
  cases eA <;> cases eB <;> cases eC <;> cases eD <;> simp [isOk]

/-- Claim C3: with both fields of a pair present and individually
non-negative, `RecipeSearchFilters` construction succeeds iff
`max ≥ min` (for the calorie pair and, symmetrically, the protein pair);
when either field of a pair is absent, no ordering check runs and
construction does not fail because of that pair. -/
theorem range_pair_checks (cu dt : Option String) (mn mx : Int) (pn px : ℚ)
    (hmn : 0 ≤ mn) (hmx : 0 ≤ mx) (hpn : 0 ≤ pn) (hpx : 0 ≤ px) :
    (isOk (RecipeSearchFilters.build cu dt (some mn) (some mx)
        (some pn) (some px)) = true ↔ (mn ≤ mx ∧ pn ≤ px))
    ∧ (isOk (RecipeSearchFilters.build cu dt none (some mx)
        (some pn) (some px)) = true ↔ pn ≤ px)
    ∧ (isOk (RecipeSearchFilters.build cu dt (some mn) none
        (some pn) (some px)) = true ↔ pn ≤ px)
    ∧ (isOk (RecipeSearchFilters.build cu dt (some mn) (some mx)
        none (some px)) = true ↔ mn ≤ mx)
    ∧ (isOk (RecipeSearchFilters.build cu dt (some mn) (some mx)
        (some pn) none) = true ↔ mn ≤ mx)
    ∧ isOk (RecipeSearchFilters.build cu dt none none none none) = true := by
  refine ⟨?_, ?_, ?_, ?_, ?_, ?_⟩
  · rw [isOk_build_filters, dataOf_validateNonNegInt mn hmn,
      dataOf_validateNonNegRat pn hpn, isOk_validateNonNegInt_of mn hmn,
      isOk_validateNonNegRat_of pn hpn]
    simp only [Bool.true_and, Bool.and_eq_true]
    rw [isOk_calorie_range_pair mx mn hmx, isOk_protein_range_pair px pn hpx]
    tauto
  · rw [isOk_build_filters, dataOf_validateNonNegRat pn hpn,
      isOk_validateNonNegRat_of pn hpn]
    have h1 : isOk (validateNonNegInt none) = true := rfl
    have h2 : dataOf (validateNonNegInt none) = some none := rfl
    rw [h1, h2, isOk_calorie_range_minAbsent mx hmx]
    simp only [Bool.true_and, Bool.and_eq_true, true_and]
    rw [isOk_protein_range_pair px pn hpx]
  · rw [isOk_build_filters, dataOf_validateNonNegRat pn hpn,
      isOk_validateNonNegInt_of mn hmn, isOk_validateNonNegRat_of pn hpn]
    have h1 : isOk (validate_calorie_range none
        (dataOf (validateNonNegInt (some mn)))) = true := by
      simp [validate_calorie_range, isOk]
    rw [h1]
    simp only [Bool.true_and, Bool.and_eq_true, true_and]
    rw [isOk_protein_range_pair px pn hpx]
  · rw [isOk_build_filters, dataOf_validateNonNegInt mn hmn,
      isOk_validateNonNegInt_of mn hmn]
    have h1 : isOk (validateNonNegRat none) = true := rfl
    have h2 : dataOf (validateNonNegRat none) = some none := rfl
    rw [h1, h2, isOk_protein_range_minAbsent px hpx]
    simp only [Bool.true_and, Bool.and_true, Bool.and_eq_true, true_and]
    rw [isOk_calorie_range_pair mx mn hmx]
  · rw [isOk_build_filters, dataOf_validateNonNegInt mn hmn,
      dataOf_validateNonNegRat pn hpn, isOk_validateNonNegInt_of mn hmn,
      isOk_validateNonNegRat_of pn hpn]
    have h1 : isOk (validate_protein_range none
        (some (some pn))) = true := by
      simp [validate_protein_range, isOk]
    rw [h1]
    simp only [Bool.true_and, Bool.and_true, Bool.and_eq_true, true_and]
    rw [isOk_calorie_range_pair mx mn hmx]
  · rfl

/-- Witness for C3 at `min_calories = 10`, `max_calories = 5` (rejected)
and at `min_calories = 10` with `max_calories` absent (accepted). -/
theorem range_pair_checks_witness :
    isOk (RecipeSearchFilters.build none none (some 10) (some 5)
        (some 1) (some 2)) = false
    ∧ isOk (RecipeSearchFilters.build none none (some 10) none
        (some 1) (some 2)) = true := by
  constructor
  · rw [← Bool.not_eq_true,
      (range_pair_checks none none 10 5 1 2 (by decide) (by decide)
        (by decide) (by decide)).1]
    decide
  · exact (range_pair_checks none none 10 5 1 2 (by decide) (by decide)
      (by decide) (by decide)).2.2.1.mpr (by decide)

end Epoch
